import Mathlib

/-!
Shallow embedding of the localgo LAN file-sharing core (discovery subsystem
and transfer session protocol), translated from the Go sources:

* `pkg/server/services/send_service.go` — `SendService` / `ReceiveService`
  (single active session per role, per-file tokens, file removal, auto-close);
* the receive handler (`PrepareUploadHandlerV2`, `UploadHandlerV2`) and the
  download handler (`PrepareDownloadHandler`, `DownloadHandler`);
* the discovery service (`Service.updateDevice`, `GetDevices`, `GetDevice`,
  `Discover`) and the multicast listener (`MulticastDiscovery.handlePacket`,
  `updateDevice`);
* `pkg/model` (`Device`, `MulticastDto`, `FileDto`, `UpdateLastSeen`,
  `IsStale`, `FromMulticastDto`);
* the storage path computation (`filepath.Join` on the download directory,
  from Go's lexical path cleaning).

Go maps are embedded as association lists (`List (String × α)`) with the
Go-map invariant of pairwise-distinct keys carried as a hypothesis where a
property needs it.  `uuid.NewString()` is embedded as an abstract generator
`gen : Nat → String` together with a counter threaded through the services.
Wall-clock instants (`time.Now()`, `time.Since`) are embedded as explicit
`Int` nanosecond parameters.  Network and disk effects are represented by
the data the handlers pass to them (response status, sink paths, unicast
response targets), so that each handler is a pure function of its inputs.
-/

namespace LocalGo

/-- Association-list lookup mirroring Go's `m[k]` (comma-ok form). -/
def lookupA {α : Type} (k : String) : List (String × α) → Option α
  | [] => none
  | (k', v) :: rest => if k' = k then some v else lookupA k rest

/-- Association-list deletion mirroring Go's `delete(m, k)` (on a map with
distinct keys it removes exactly the entry for `k`). -/
def eraseA {α : Type} (k : String) : List (String × α) → List (String × α)
  | [] => []
  | (k', v) :: rest => if k' = k then eraseA k rest else (k', v) :: eraseA k rest

/-- The keys of an association list. -/
def keysA {α : Type} (m : List (String × α)) : List String :=
  m.map Prod.fst

/-- `model.DeviceType` (pkg/model): enum of device kinds. -/
inductive DeviceType where
  | mobile | desktop | web | headless | server | laptop | tablet | other
deriving DecidableEq, Repr

/-- `model.ProtocolType` (pkg/model): http or https. -/
inductive ProtocolType where
  | http | https
deriving DecidableEq, Repr

/-- `model.FileDto` (pkg/model): metadata of one file in a transfer. -/
structure FileDto where
  id : String
  fileName : String
  size : Int
  fileType : String
  sha256 : Option String
deriving DecidableEq, Repr

/-- `model.DeviceInfo` (pkg/model): the sender identity a receive session
records at prepare-upload time (fields the handler fills in). -/
structure DeviceInfo where
  alias_ : String
  version : String
  deviceModel : Option String
  deviceType : DeviceType
  fingerprint : String
  ip : String
deriving DecidableEq, Repr

/-- `model.MulticastDto` (pkg/model): the UDP discovery message. -/
structure MulticastDto where
  alias_ : String
  version : String
  deviceModel : Option String
  deviceType : DeviceType
  fingerprint : String
  port : Int
  protocol : ProtocolType
  download : Bool
  announce : Bool
deriving DecidableEq, Repr

/-- `model.Device` (pkg/model): one discovered peer.  `lastSeen` is the
`time.Now()` instant (nanoseconds) of the latest sighting. -/
structure Device where
  ip : String
  version : String
  port : Int
  alias_ : String
  protocol : ProtocolType
  fingerprint : String
  deviceModel : Option String
  deviceType : DeviceType
  download : Bool
  lastSeen : Int
  available : Bool
deriving DecidableEq, Repr

/-- `Device.UpdateLastSeen` (pkg/model): refresh the last-seen instant and
mark the device available; no other field is touched. -/
def updateLastSeen (d : Device) (now : Int) : Device :=
  { d with lastSeen := now, available := true }

/-- `Device.IsStale` (pkg/model): `time.Since(d.LastSeen) > staleThreshold`. -/
def isStale (d : Device) (now staleThreshold : Int) : Bool :=
  now - d.lastSeen > staleThreshold

/-- `model.FromMulticastDto` (pkg/model): build a `Device` from a discovery
message and the UDP source IP, seen `now`. -/
def fromMulticastDto (dto : MulticastDto) (ip : String) (now : Int) : Device :=
  { ip := ip
    version := dto.version
    port := dto.port
    alias_ := dto.alias_
    protocol := dto.protocol
    fingerprint := dto.fingerprint
    deviceModel := dto.deviceModel
    deviceType := dto.deviceType
    download := dto.download
    lastSeen := now
    available := true }

/-- `services.ActiveFile` (send_service.go): a file of a receive session,
its metadata plus its single-use access token. -/
structure ActiveFile where
  dto : FileDto
  token : String
deriving DecidableEq, Repr

/-- `services.ActiveReceiveSession` (send_service.go). -/
structure ActiveReceiveSession where
  sessionID : String
  sender : DeviceInfo
  files : List (String × ActiveFile)
deriving DecidableEq, Repr

/-- `services.ReceiveService` state: at most one active receive session. -/
structure ReceiveState where
  currentSession : Option ActiveReceiveSession
deriving DecidableEq, Repr

/-- `services.ActiveSendSession` (send_service.go). -/
structure ActiveSendSession where
  sessionID : String
  files : List (String × FileDto)
deriving DecidableEq, Repr

/-- `services.SendService` state: at most one active send session. -/
structure SendState where
  currentSession : Option ActiveSendSession
deriving DecidableEq, Repr

/-- The token-issuing loop of `ReceiveService.CreateSession`: one fresh
`uuid.NewString()` per requested file, threading the uuid counter. -/
def mkActiveFiles (gen : Nat → String) :
    Nat → List (String × FileDto) → List (String × ActiveFile) × Nat
  | ctr, [] => ([], ctr)
  | ctr, (fid, dto) :: rest =>
    let tok := gen ctr
    let (tail, ctr') := mkActiveFiles gen (ctr + 1) rest
    ((fid, ⟨dto, tok⟩) :: tail, ctr')

/-- Result of `ReceiveService.CreateSession`: Go's `(*ActiveReceiveSession,
error)` pair plus the updated service state and uuid counter. -/
structure CreateReceiveResult where
  session : Option ActiveReceiveSession
  err : Option String
  state : ReceiveState
  ctr : Nat
deriving DecidableEq, Repr

/-- `ReceiveService.CreateSession` (send_service.go): fail if a session is
already active; otherwise allocate a fresh session ID and one fresh token
per file. -/
def receiveCreateSession (st : ReceiveState) (sender : DeviceInfo)
    (files : List (String × FileDto)) (gen : Nat → String) (ctr : Nat) :
    CreateReceiveResult :=
  match st.currentSession with
  | some _ => ⟨none, some "session already active", st, ctr⟩
  | none =>
    let sessionId := gen ctr
    let (sessionFiles, ctr') := mkActiveFiles gen (ctr + 1) files
    let sess : ActiveReceiveSession := ⟨sessionId, sender, sessionFiles⟩
    ⟨some sess, none, ⟨some sess⟩, ctr'⟩

/-- Result of `SendService.CreateSession`. -/
structure CreateSendResult where
  session : Option ActiveSendSession
  err : Option String
  state : SendState
  ctr : Nat
deriving DecidableEq, Repr

/-- `SendService.CreateSession` (send_service.go): fail if a session is
already active; otherwise allocate a fresh session ID and store the files. -/
def sendCreateSession (st : SendState) (files : List (String × FileDto))
    (gen : Nat → String) (ctr : Nat) : CreateSendResult :=
  match st.currentSession with
  | some _ => ⟨none, some "session already active", st, ctr⟩
  | none =>
    let sessionId := gen ctr
    let sess : ActiveSendSession := ⟨sessionId, files⟩
    ⟨some sess, none, ⟨some sess⟩, ctr + 1⟩

/-- `ReceiveService.GetSessionByID` (send_service.go): the session if the ID
matches the active one, else nil. -/
def receiveGetSessionByID (st : ReceiveState) (sessionID : String) :
    Option ActiveReceiveSession :=
  match st.currentSession with
  | some s => if s.sessionID = sessionID then some s else none
  | none => none

/-- `SendService.GetSessionByID` (send_service.go). -/
def sendGetSessionByID (st : SendState) (sessionID : String) :
    Option ActiveSendSession :=
  match st.currentSession with
  | some s => if s.sessionID = sessionID then some s else none
  | none => none

/-- `ReceiveService.CloseSession` (send_service.go): unconditional clear. -/
def receiveCloseSession (_st : ReceiveState) : ReceiveState := ⟨none⟩

/-- `ReceiveService.RemoveFileFromSession` (send_service.go): if the ID
matches the active session, delete that file entry; if the file map becomes
empty, clear the whole session. -/
def removeFileFromSession (st : ReceiveState) (sessionID fileID : String) :
    ReceiveState :=
  match st.currentSession with
  | some s =>
    if s.sessionID = sessionID then
      let files' := eraseA fileID s.files
      if files' = [] then ⟨none⟩ else ⟨some { s with files := files' }⟩
    else st
  | none => st

/-- The parts of `config.Config` the handlers read: the optional PIN (empty
string means no PIN configured) and the download directory. -/
structure Config where
  pin : String
  downloadDir : String
deriving DecidableEq, Repr

/-- `model.InfoDto` as carried in a prepare-upload request body. -/
structure InfoDto where
  alias_ : String
  version : String
  deviceModel : Option String
  deviceType : DeviceType
  fingerprint : String
deriving DecidableEq, Repr

/-- `model.PrepareUploadRequestDto` (the fields the handler reads). -/
structure PrepareUploadRequestDto where
  info : InfoDto
  files : List (String × FileDto)
deriving DecidableEq, Repr

/-- Outcome of `ReceiveHandler.PrepareUploadHandlerV2`: HTTP status, the
response body on success (session ID and the per-file token map), the new
service state and uuid counter. -/
structure PrepareUploadResult where
  status : Nat
  respSessionID : Option String
  respFiles : Option (List (String × String))
  state : ReceiveState
  ctr : Nat
deriving DecidableEq, Repr

/-- `ReceiveHandler.PrepareUploadHandlerV2`: PIN check (401), busy check
(409), body decode and non-empty check (400), then session creation and the
200 response listing one token per file.  `body = none` stands for a request
body the JSON decoder rejects; `queryPin` is the `pin` query parameter (empty
when absent); `senderIP` is the host part of `r.RemoteAddr`. -/
def prepareUploadV2 (cfg : Config) (queryPin : String) (st : ReceiveState)
    (body : Option PrepareUploadRequestDto) (senderIP : String)
    (gen : Nat → String) (ctr : Nat) : PrepareUploadResult :=
  if cfg.pin ≠ "" ∧ queryPin ≠ cfg.pin then
    ⟨401, none, none, st, ctr⟩
  else if st.currentSession.isSome then
    ⟨409, none, none, st, ctr⟩
  else
    match body with
    | none => ⟨400, none, none, st, ctr⟩
    | some dto =>
      if dto.files = [] then
        ⟨400, none, none, st, ctr⟩
      else
        let sender : DeviceInfo :=
          { alias_ := dto.info.alias_
            version := dto.info.version
            deviceModel := dto.info.deviceModel
            deviceType := dto.info.deviceType
            fingerprint := dto.info.fingerprint
            ip := senderIP }
        let r := receiveCreateSession st sender dto.files gen ctr
        match r.session with
        | some sess =>
          ⟨200, some sess.sessionID,
            some (sess.files.map fun p => (p.1, p.2.token)), r.state, r.ctr⟩
        | none => ⟨409, none, none, r.state, r.ctr⟩

/-- Split a path into its slash-separated components
(Go `strings.Split(path, "/")`). -/
def splitSlashAux : List Char → List Char → List String
  | [], acc => [String.mk acc.reverse]
  | c :: cs, acc =>
    if c = '/' then String.mk acc.reverse :: splitSlashAux cs []
    else splitSlashAux cs (c :: acc)

/-- Split a path on slashes. -/
def splitSlash (s : String) : List String := splitSlashAux s.data []

/-- Join path components with slashes (Go `strings.Join(elems, "/")`). -/
def joinSlash : List String → String
  | [] => ""
  | [c] => c
  | c :: rest => c ++ "/" ++ joinSlash rest

/-- Whether a path is rooted, i.e. begins with a slash. -/
def isRooted (s : String) : Bool :=
  match s.data with
  | '/' :: _ => true
  | _ => false

/-- Go's `path.Clean` on forward-slash paths (what `filepath.Join` applies
on Unix): drop empty and `.` components, resolve `..` lexically (a leading
`..` survives on relative paths and is elided at the root of rooted ones). -/
def cleanComponents (rooted : Bool) : List String → List String → List String
  | out, [] => out
  | out, c :: rest =>
    if c = "" ∨ c = "." then cleanComponents rooted out rest
    else if c = ".." then
      match out.getLast? with
      | some last =>
        if last = ".." then cleanComponents rooted (out ++ [".."]) rest
        else cleanComponents rooted out.dropLast rest
      | none =>
        if rooted then cleanComponents rooted out rest
        else cleanComponents rooted [".."] rest
    else cleanComponents rooted (out ++ [c]) rest

/-- Go's `filepath.Clean` (Unix): lexical simplification of a path. -/
def cleanPath (path : String) : String :=
  if path = "" then "."
  else
    let rooted := isRooted path
    let comps := cleanComponents rooted [] (splitSlash path)
    let result := (if rooted then "/" else "") ++ joinSlash comps
    if result = "" then "." else result

/-- Go's `filepath.Join` of two elements (Unix): drop empty elements, join
with a slash, then clean. -/
def joinPath (a b : String) : String :=
  match [a, b].filter (fun s => s ≠ "") with
  | [] => ""
  | es => cleanPath (joinSlash es)

/-- Outcome of `ReceiveHandler.UploadHandlerV2`: HTTP status, the new
receive-service state, and the destination paths handed to the storage sink
(`storage.SaveStreamToFile`) during the request. -/
structure UploadResult where
  status : Nat
  state : ReceiveState
  sinkCalls : List String
deriving DecidableEq, Repr

/-- `ReceiveHandler.UploadHandlerV2`: missing query parameters (400), session
ID validation (403), source-IP validation against the prepare-upload sender
(403), fileId/token validation (403), then the storage sink on
`filepath.Join(DownloadDir, FileName)` — sink failure answers 500 with the
session untouched, success removes the file (auto-closing an emptied
session) and answers 200.  `reqIP` is the host part of `r.RemoteAddr`;
`sinkOk` is whether `storage.SaveStreamToFile` returned nil. -/
def uploadV2 (cfg : Config) (st : ReceiveState)
    (reqSessionId reqFileId reqToken reqIP : String) (sinkOk : Bool) :
    UploadResult :=
  if reqSessionId = "" ∨ reqFileId = "" ∨ reqToken = "" then
    ⟨400, st, []⟩
  else
    match receiveGetSessionByID st reqSessionId with
    | none => ⟨403, st, []⟩
    | some session =>
      if reqIP ≠ session.sender.ip then
        ⟨403, st, []⟩
      else
        match lookupA reqFileId session.files with
        | none => ⟨403, st, []⟩
        | some fileInfo =>
          if fileInfo.token ≠ reqToken then
            ⟨403, st, []⟩
          else
            let destinationPath := joinPath cfg.downloadDir fileInfo.dto.fileName
            if sinkOk then
              ⟨200, removeFileFromSession st reqSessionId reqFileId,
                [destinationPath]⟩
            else
              ⟨500, st, [destinationPath]⟩

/-- Outcome of `DownloadHandler.DownloadHandler`: HTTP status, the three
response headers set on success, and the response body written. -/
structure DownloadResult where
  status : Nat
  headerDisposition : Option String
  headerType : Option String
  headerLength : Option String
  body : Option String
deriving DecidableEq, Repr

/-- `DownloadHandler.DownloadHandler` (download_handlers.go): missing
parameters (400), unknown session (404), unknown file (404); otherwise set
`Content-Disposition`/`Content-Type`/`Content-Length` from the file's
metadata and write the placeholder body `"Hello, World"` (the code does not
read the file from storage yet). -/
def downloadHandler (st : SendState) (sessionId fileId : String) :
    DownloadResult :=
  if sessionId = "" ∨ fileId = "" then
    ⟨400, none, none, none, none⟩
  else
    match sendGetSessionByID st sessionId with
    | none => ⟨404, none, none, none, none⟩
    | some session =>
      match lookupA fileId session.files with
      | none => ⟨404, none, none, none, none⟩
      | some file =>
        ⟨200,
          some ("attachment; filename=\"" ++ file.fileName ++ "\""),
          some file.fileType,
          some (toString file.size),
          some "Hello, World"⟩

/-- The parts of `discovery.ServiceConfig` the registry reads: the staleness
timeout, in nanoseconds (Go `time.Duration`). -/
structure ServiceConfig where
  announceInterval : Int
  deviceTimeout : Int
deriving DecidableEq, Repr

/-- `discovery.DefaultServiceConfig`: announce every 30 s, consider devices
offline after 2 min. -/
def defaultServiceConfig : ServiceConfig :=
  ⟨30 * 1000000000, 2 * 60 * 1000000000⟩

/-- `Service.updateDevice` (discovery service): if the fingerprint is known,
refresh the existing entry in place via `UpdateLastSeen` (called at instant
`now`); else insert the new device and notify every handler.  Returns the
updated registry and the devices handed to handlers. -/
def updateDevice (devices : List (String × Device)) (now : Int) (d : Device) :
    List (String × Device) × List Device :=
  match lookupA d.fingerprint devices with
  | some _ =>
    (devices.map fun p =>
      if p.1 = d.fingerprint then (p.1, updateLastSeen p.2 now) else p, [])
  | none => (devices ++ [(d.fingerprint, d)], [d])

/-- `Service.GetDevices`: all registry entries whose staleness predicate is
false at instant `now`. -/
def getDevices (devices : List (String × Device)) (now timeout : Int) :
    List Device :=
  (devices.filter fun p => ¬ isStale p.2 now timeout).map Prod.snd

/-- `Service.GetDevice`: the entry for `id`, only if present and fresh. -/
def getDevice (devices : List (String × Device)) (id : String)
    (now timeout : Int) : Option Device :=
  match lookupA id devices with
  | some device => if isStale device now timeout then none else some device
  | none => none

/-- Outcome of `MulticastDiscovery.handlePacket`: the listener's device map
afterwards, the devices handed to device-discovered handlers, the targets of
unicast discovery responses sent, and the returned error. -/
structure HandlePacketResult where
  devices : List (String × Device)
  fired : List Device
  responses : List String
  err : Option String
deriving DecidableEq, Repr

/-- `MulticastDiscovery.updateDevice` (multicast listener): same shape as the
service-level upsert, keyed by fingerprint. -/
def mdUpdateDevice (devices : List (String × Device)) (now : Int)
    (d : Device) : List (String × Device) × List Device :=
  match lookupA d.fingerprint devices with
  | some _ =>
    (devices.map fun p =>
      if p.1 = d.fingerprint then (p.1, updateLastSeen p.2 now) else p, [])
  | none => (devices ++ [(d.fingerprint, d)], [d])

/-- `MulticastDiscovery.handlePacket`: parse the datagram (`parsed = none`
stands for a JSON unmarshal failure, answered with an error and no other
effect); discard self-announcements (fingerprint equal to the local DTO's);
otherwise build a `Device` from the DTO plus the UDP source IP, upsert it,
and — only for announcements — send a unicast response to the sender. -/
def handlePacket (localDto : MulticastDto) (devices : List (String × Device))
    (now : Int) (parsed : Option MulticastDto) (srcIP : String) :
    HandlePacketResult :=
  match parsed with
  | none => ⟨devices, [], [], some "failed to unmarshal packet"⟩
  | some dto =>
    if dto.fingerprint = localDto.fingerprint then
      ⟨devices, [], [], none⟩
    else
      let device := fromMulticastDto dto srcIP now
      let (devices', fired) := mdUpdateDevice devices now device
      ⟨devices', fired, if dto.announce then [srcIP] else [], none⟩

/-- Outcome of `Service.Discover`: the device list and error returned, and
how many discovery announcements were sent. -/
structure DiscoverResult where
  devices : List Device
  err : Option String
  announcements : Nat
deriving DecidableEq, Repr

/-- The select loop of `Service.Discover`: each 250 ms ticker event
overwrites `lastDevices` with a fresh `GetDevices` snapshot; when the
context's deadline fires the loop returns `lastDevices` and a nil error.
`snapshots` lists the `GetDevices` results at the ticker events that occur
before the deadline, in order. -/
def discoverLoop : List (List Device) → List Device → List Device × Option String
  | [], lastDevices => (lastDevices, none)
  | snap :: rest, _ => discoverLoop rest snap

/-- `Service.Discover`: send one announcement, then poll the registry at the
fixed 250 ms interval until the deadline, returning the snapshot taken at
the last ticker event (initially the nil slice) and a nil error. -/
def discover (snapshots : List (List Device)) : DiscoverResult :=
  let (ds, err) := discoverLoop snapshots []
  ⟨ds, err, 1⟩

/-! ### Sample data used by witnesses and counterexamples -/

/-- A sample file declaration. -/
def sampleFileDto : FileDto := ⟨"fid-1", "a.txt", 12, "text/plain", none⟩

/-- A sample sender identity as recorded at prepare-upload time. -/
def sampleSender : DeviceInfo :=
  ⟨"peer", "2.1", none, DeviceType.desktop, "fp-peer", "192.168.1.7"⟩

/-- A deterministic stand-in for the uuid generator. -/
def gen0 : Nat → String := fun n => "uuid-" ++ toString n

/-- A receive service already holding an active session. -/
def busyReceive : ReceiveState :=
  ⟨some ⟨"sid-1", sampleSender, [("fid-1", ⟨sampleFileDto, "tok-1"⟩)]⟩⟩

/-- A sample local discovery message. -/
def dtoSelf : MulticastDto :=
  ⟨"me", "2.1", none, DeviceType.laptop, "fp-local", 53317,
    ProtocolType.https, false, true⟩

/-- A sample peer discovery message. -/
def dtoPeer : MulticastDto :=
  ⟨"peer", "2.1", none, DeviceType.desktop, "fp-1", 53317,
    ProtocolType.https, false, true⟩

/-- The device built from `dtoPeer` first sighted from 10.0.0.1 at t=100. -/
def devFirst : Device := fromMulticastDto dtoPeer "10.0.0.1" 100

/-- The device built from `dtoPeer` sighted again from 10.0.0.2 at t=200. -/
def devSecond : Device := fromMulticastDto dtoPeer "10.0.0.2" 200

/-- A late-arriving peer used by the Discover counterexample. -/
def dtoLate : MulticastDto :=
  ⟨"late", "2.1", none, DeviceType.mobile, "fp-2", 53317,
    ProtocolType.https, false, true⟩

/-- The late device, first sighted from 10.0.0.3 at t=300. -/
def devLate : Device := fromMulticastDto dtoLate "10.0.0.3" 300

/-- A sample send-session file whose declared size is 5 bytes. -/
def sendFileSmall : FileDto := ⟨"f1", "report.txt", 5, "text/plain", none⟩

/-- A send service exposing `sendFileSmall` under session sess-1. -/
def sendStateSmall : SendState := ⟨some ⟨"sess-1", [("f1", sendFileSmall)]⟩⟩

/-! ### Helper lemmas about the association-list embedding of Go maps -/

theorem lookupA_eraseA_self {α : Type} (k : String) (m : List (String × α)) :
    lookupA k (eraseA k m) = none := by
  induction m with
  | nil => rfl
  | cons p rest ih =>
    obtain ⟨k', v⟩ := p
    by_cases h : k' = k
    · simpa [eraseA, h] using ih
    · simpa [eraseA, h, lookupA] using ih

theorem lookupA_eraseA_ne {α : Type} (q k : String) (m : List (String × α))
    (hne : q ≠ k) : lookupA q (eraseA k m) = lookupA q m := by
  induction m with
  | nil => rfl
  | cons p rest ih =>
    obtain ⟨k', v⟩ := p
    by_cases h : k' = k
    · have h2 : ¬ k' = q := fun hq => hne (hq.symm.trans h)
      simp [eraseA, h, lookupA, h2, ih, hne.symm]
    · by_cases h2 : k' = q
      · simp [eraseA, h, lookupA, h2, hne]
      · simp [eraseA, h, lookupA, h2, ih]

theorem lookupA_some_mem_keysA {α : Type} (k : String) (m : List (String × α))
    (v : α) (h : lookupA k m = some v) : k ∈ keysA m := by
  induction m with
  | nil => simp [lookupA] at h
  | cons p rest ih =>
    obtain ⟨k', v'⟩ := p
    by_cases hk : k' = k
    · simp [keysA, hk]
    · simp only [lookupA, if_neg hk] at h
      simpa [keysA] using Or.inr (ih h)

theorem eraseA_of_not_mem {α : Type} (k : String) (m : List (String × α))
    (h : k ∉ keysA m) : eraseA k m = m := by
  induction m with
  | nil => rfl
  | cons p rest ih =>
    obtain ⟨k', v⟩ := p
    simp only [keysA, List.map_cons, List.mem_cons, not_or] at h
    have hk : ¬ k' = k := fun hkk => h.1 hkk.symm
    simp [eraseA, hk, ih (by simpa [keysA] using h.2)]

theorem length_eraseA_of_present {α : Type} (k : String)
    (m : List (String × α)) (v : α) (hnd : (keysA m).Nodup)
    (h : lookupA k m = some v) : (eraseA k m).length + 1 = m.length := by
  induction m with
  | nil => simp [lookupA] at h
  | cons p rest ih =>
    obtain ⟨k', v'⟩ := p
    simp only [keysA, List.map_cons, List.nodup_cons] at hnd
    by_cases hk : k' = k
    · have : k ∉ keysA rest := hk ▸ hnd.1
      simp [eraseA, hk, eraseA_of_not_mem k rest this]
    · simp only [lookupA, if_neg hk] at h
      simp [eraseA, hk, ih hnd.2 h]

theorem lookupA_map_refresh (m : List (String × Device)) (f : String)
    (now : Int) (d1 : Device) (h : lookupA f m = some d1) :
    lookupA f (m.map fun p =>
        if p.1 = f then (p.1, updateLastSeen p.2 now) else p) =
      some (updateLastSeen d1 now) := by
  induction m with
  | nil => simp [lookupA] at h
  | cons p rest ih =>
    obtain ⟨k', v⟩ := p
    by_cases hk : k' = f
    · subst hk
      simp [lookupA] at h
      subst h
      have hhead :
          (if (k', v).1 = k' then ((k', v).1, updateLastSeen (k', v).2 now)
            else (k', v)) = (k', updateLastSeen v now) := by
        simp
      rw [List.map_cons, hhead]
      simp [lookupA]
    · simp only [lookupA, if_neg hk] at h
      simp only [List.map_cons]
      rw [if_neg (by simpa using hk)]
      simp only [lookupA, if_neg hk]
      exact ih h

theorem lookupA_map_refresh_ne (m : List (String × Device)) (f q : String)
    (now : Int) (hne : q ≠ f) :
    lookupA q (m.map fun p =>
        if p.1 = f then (p.1, updateLastSeen p.2 now) else p) =
      lookupA q m := by
  induction m with
  | nil => rfl
  | cons p rest ih =>
    obtain ⟨k', v⟩ := p
    simp only [List.map_cons]
    by_cases hk : k' = f
    · have h2 : ¬ k' = q := fun hq => hne (hq.symm.trans hk)
      rw [if_pos (by simpa using hk)]
      simp only [lookupA, if_neg h2]
      exact ih
    · rw [if_neg (by simpa using hk)]
      by_cases h2 : k' = q
      · simp [lookupA, h2]
      · simp only [lookupA, if_neg h2]
        exact ih

theorem keysA_map_refresh (m : List (String × Device)) (f : String)
    (now : Int) :
    keysA (m.map fun p =>
        if p.1 = f then (p.1, updateLastSeen p.2 now) else p) = keysA m := by
  induction m with
  | nil => rfl
  | cons p rest ih =>
    obtain ⟨k', v⟩ := p
    simp only [List.map_cons]
    by_cases hk : k' = f
    · rw [if_pos (by simpa using hk)]
      simp only [keysA, List.map_cons] at ih ⊢
      simp [ih]
    · rw [if_neg (by simpa using hk)]
      simp only [keysA, List.map_cons] at ih ⊢
      simp [ih]

/-! ### Claims -/

/-- C2: on each Session Manager instance (send role and receive role alike),
`createSession` fails with a "session already active" error when a session
is already active and leaves the existing session, its files and the uuid
counter unchanged; starting from an idle manager, the first of two
`createSession` calls (in either serialization order — the per-service
mutex serializes them) succeeds and installs the created session, and the
second then receives the "session already active" error, so a manager never
holds two active sessions. -/
theorem createSession_exclusive (stR : ReceiveState) (stS : SendState)
    (sender : DeviceInfo) (filesR filesS : List (String × FileDto))
    (gen : Nat → String) (ctrR ctrS : Nat) :
    (∀ s, stR.currentSession = some s →
      receiveCreateSession stR sender filesR gen ctrR =
        ⟨none, some "session already active", stR, ctrR⟩) ∧
    (∀ s, stS.currentSession = some s →
      sendCreateSession stS filesS gen ctrS =
        ⟨none, some "session already active", stS, ctrS⟩) ∧
    (stR.currentSession = none →
      ∃ sess, (receiveCreateSession stR sender filesR gen ctrR).session = some sess ∧
        (receiveCreateSession stR sender filesR gen ctrR).err = none ∧
        (receiveCreateSession stR sender filesR gen ctrR).state.currentSession = some sess ∧
        ∀ sender2 files2 gen2 ctr2,
          receiveCreateSession (receiveCreateSession stR sender filesR gen ctrR).state
              sender2 files2 gen2 ctr2 =
            ⟨none, some "session already active",
              (receiveCreateSession stR sender filesR gen ctrR).state, ctr2⟩) ∧
    (stS.currentSession = none →
      ∃ sess, (sendCreateSession stS filesS gen ctrS).session = some sess ∧
        (sendCreateSession stS filesS gen ctrS).err = none ∧
        (sendCreateSession stS filesS gen ctrS).state.currentSession = some sess ∧
        ∀ files2 gen2 ctr2,
          sendCreateSession (sendCreateSession stS filesS gen ctrS).state
              files2 gen2 ctr2 =
            ⟨none, some "session already active",
              (sendCreateSession stS filesS gen ctrS).state, ctr2⟩) := by
  refine ⟨?_, ?_, ?_, ?_⟩
  · intro s hs
    simp [receiveCreateSession, hs]
  · intro s hs
    simp [sendCreateSession, hs]
  · intro hnone
    rcases hmk : mkActiveFiles gen (ctrR + 1) filesR with ⟨fs, c⟩
    refine ⟨⟨gen ctrR, sender, fs⟩, ?_, ?_, ?_, ?_⟩ <;>
      simp [receiveCreateSession, hnone, hmk]
  · intro hnone
    refine ⟨⟨gen ctrS, filesS⟩, ?_, ?_, ?_, ?_⟩ <;>
      simp [sendCreateSession, hnone]

/-- Witness for C2: a busy receive service rejects a second create and is
left unchanged. -/
theorem createSession_exclusive_witness :
    receiveCreateSession busyReceive sampleSender [] gen0 3 =
      ⟨none, some "session already active", busyReceive, 3⟩ :=
  (createSession_exclusive busyReceive ⟨none⟩ sampleSender [] [] gen0 3 0).1
    _ rfl

/-- C4: `RemoveFileFromSession` on a session whose ID matches deletes
exactly the entry of that file ID (lookups of every other key are
unchanged, and exactly one entry disappears when the file was pending),
clears the whole session when the file map becomes empty — after which
`GetSessionByID` with that session ID returns not-found — and never leaves
an empty session behind. -/
theorem removeFile_matching_spec (st : ReceiveState)
    (s : ActiveReceiveSession) (sid fid : String)
    (hcur : st.currentSession = some s) (hsid : s.sessionID = sid)
    (hnd : (keysA s.files).Nodup) :
    (∀ s', (removeFileFromSession st sid fid).currentSession = some s' →
      s'.files = eraseA fid s.files ∧
      lookupA fid s'.files = none ∧
      (∀ k, k ≠ fid → lookupA k s'.files = lookupA k s.files)) ∧
    (∀ af, lookupA fid s.files = some af →
      (eraseA fid s.files).length + 1 = s.files.length) ∧
    (eraseA fid s.files = [] →
      (removeFileFromSession st sid fid).currentSession = none ∧
      receiveGetSessionByID (removeFileFromSession st sid fid) sid = none) ∧
    (eraseA fid s.files ≠ [] →
      (removeFileFromSession st sid fid).currentSession =
        some { s with files := eraseA fid s.files }) ∧
    (∀ s', (removeFileFromSession st sid fid).currentSession = some s' →
      s'.files ≠ []) := by
  have hstep : removeFileFromSession st sid fid =
      if eraseA fid s.files = [] then ⟨none⟩
      else ⟨some { s with files := eraseA fid s.files }⟩ := by
    simp [removeFileFromSession, hcur, hsid]
  refine ⟨?_, ?_, ?_, ?_, ?_⟩
  · intro s' hs'
    rw [hstep] at hs'
    by_cases hemp : eraseA fid s.files = []
    · simp [hemp] at hs'
    · simp only [if_neg hemp] at hs'
      have heq : s' = { s with files := eraseA fid s.files } := by
        simpa using hs'.symm
      subst heq
      exact ⟨rfl, lookupA_eraseA_self fid s.files,
        fun k hk => lookupA_eraseA_ne k fid s.files hk⟩
  · intro af haf
    exact length_eraseA_of_present fid s.files af hnd haf
  · intro hemp
    rw [hstep]
    simp [hemp, receiveGetSessionByID]
  · intro hemp
    rw [hstep]
    simp [hemp]
  · intro s' hs'
    rw [hstep] at hs'
    by_cases hemp : eraseA fid s.files = []
    · simp [hemp] at hs'
    · simp only [if_neg hemp] at hs'
      have heq : s' = { s with files := eraseA fid s.files } := by
        simpa using hs'.symm
      subst heq
      exact hemp

/-- Witness for C4: removing the only file of a concrete matching session
clears it and `GetSessionByID` then misses. -/
theorem removeFile_matching_spec_witness :
    (removeFileFromSession busyReceive "sid-1" "fid-1").currentSession = none ∧
    receiveGetSessionByID (removeFileFromSession busyReceive "sid-1" "fid-1")
      "sid-1" = none :=
  (removeFile_matching_spec busyReceive _ "sid-1" "fid-1" rfl rfl
    (by decide)).2.2.1 (by decide)

/-- C5: a received multicast Discovery Message whose fingerprint equals the
local device's own fingerprint is discarded: the listener's device map is
unchanged (so the registry handler that feeds the discovery service's
registry never runs), no device-discovered handler fires, and no unicast
response is sent back. -/
theorem handlePacket_self_suppression (localDto dto : MulticastDto)
    (devices : List (String × Device)) (now : Int) (srcIP : String)
    (h : dto.fingerprint = localDto.fingerprint) :
    handlePacket localDto devices now (some dto) srcIP =
      ⟨devices, [], [], none⟩ := by
  simp [handlePacket, h]

/-- Witness for C5: a concrete self-announcement leaves everything alone. -/
theorem handlePacket_self_suppression_witness :
    handlePacket dtoSelf [] 5 (some dtoSelf) "10.0.0.9" = ⟨[], [], [], none⟩ :=
  handlePacket_self_suppression dtoSelf dtoSelf [] 5 "10.0.0.9" rfl

theorem mkActiveFiles_keys (gen : Nat → String)
    (fs : List (String × FileDto)) :
    ∀ ctr, (mkActiveFiles gen ctr fs).1.map Prod.fst = fs.map Prod.fst := by
  induction fs with
  | nil => intro ctr; rfl
  | cons p rest ih =>
    intro ctr
    obtain ⟨fid, dto⟩ := p
    rcases hmk : mkActiveFiles gen (ctr + 1) rest with ⟨tail, c⟩
    have htail := ih (ctr + 1)
    rw [hmk] at htail
    simp [mkActiveFiles, hmk, htail]

theorem mkActiveFiles_tokens (gen : Nat → String)
    (fs : List (String × FileDto)) :
    ∀ ctr, (mkActiveFiles gen ctr fs).1.map (fun p => p.2.token) =
      (List.range fs.length).map (fun i => gen (ctr + i)) := by
  induction fs with
  | nil => intro ctr; rfl
  | cons p rest ih =>
    intro ctr
    obtain ⟨fid, dto⟩ := p
    rcases hmk : mkActiveFiles gen (ctr + 1) rest with ⟨tail, c⟩
    have htail := ih (ctr + 1)
    rw [hmk] at htail
    simp only [List.length_cons, List.range_succ_eq_map, mkActiveFiles, hmk,
      List.map_cons, List.map_map, List.cons.injEq, Nat.add_zero,
      Function.comp]
    refine ⟨trivial, ?_⟩
    rw [htail]
    exact List.map_congr_left fun i _ => congrArg gen (by omega)

/-- C3: `PrepareUploadHandlerV2` answers 401 when a PIN is configured and
the request's `pin` query parameter differs from it; 409 when a session is
already active; 400 when the body is malformed or declares zero files;
otherwise it creates the receive session and answers 200 carrying the new
session's ID and a token map whose keys are exactly the requested file IDs,
each bound to a freshly drawn uuid (one generator draw per file, after the
draw used for the session ID).  In every rejecting branch the service state
and the uuid counter are untouched. -/
theorem prepareUploadV2_spec (cfg : Config) (qpin senderIP : String)
    (st : ReceiveState) (body : Option PrepareUploadRequestDto)
    (gen : Nat → String) (ctr : Nat) :
    (cfg.pin ≠ "" → qpin ≠ cfg.pin →
      prepareUploadV2 cfg qpin st body senderIP gen ctr =
        ⟨401, none, none, st, ctr⟩) ∧
    ((cfg.pin = "" ∨ qpin = cfg.pin) → st.currentSession.isSome →
      prepareUploadV2 cfg qpin st body senderIP gen ctr =
        ⟨409, none, none, st, ctr⟩) ∧
    ((cfg.pin = "" ∨ qpin = cfg.pin) → st.currentSession = none → body = none →
      prepareUploadV2 cfg qpin st body senderIP gen ctr =
        ⟨400, none, none, st, ctr⟩) ∧
    (∀ dto, (cfg.pin = "" ∨ qpin = cfg.pin) → st.currentSession = none →
      body = some dto → dto.files = [] →
      prepareUploadV2 cfg qpin st body senderIP gen ctr =
        ⟨400, none, none, st, ctr⟩) ∧
    (∀ dto, (cfg.pin = "" ∨ qpin = cfg.pin) → st.currentSession = none →
      body = some dto → dto.files ≠ [] →
      (prepareUploadV2 cfg qpin st body senderIP gen ctr).status = 200 ∧
      ∃ sess,
        (prepareUploadV2 cfg qpin st body senderIP gen ctr).state.currentSession
            = some sess ∧
        (prepareUploadV2 cfg qpin st body senderIP gen ctr).respSessionID =
            some sess.sessionID ∧
        sess.sessionID = gen ctr ∧
        ∃ fl, (prepareUploadV2 cfg qpin st body senderIP gen ctr).respFiles =
            some fl ∧
          fl.map Prod.fst = dto.files.map Prod.fst ∧
          fl.map Prod.snd =
            (List.range dto.files.length).map (fun i => gen (ctr + 1 + i))) := by
  refine ⟨?_, ?_, ?_, ?_, ?_⟩
  · intro hp hq
    unfold prepareUploadV2
    rw [if_pos ⟨hp, hq⟩]
  · intro hpin hsome
    have hcond : ¬(cfg.pin ≠ "" ∧ qpin ≠ cfg.pin) := by
      rcases hpin with h | h
      · exact fun hc => hc.1 h
      · exact fun hc => hc.2 h
    simp [prepareUploadV2, hcond, hsome]
  · intro hpin hnone hbody
    have hcond : ¬(cfg.pin ≠ "" ∧ qpin ≠ cfg.pin) := by
      rcases hpin with h | h
      · exact fun hc => hc.1 h
      · exact fun hc => hc.2 h
    subst hbody
    simp [prepareUploadV2, hcond, hnone]
  · intro dto hpin hnone hbody hemp
    have hcond : ¬(cfg.pin ≠ "" ∧ qpin ≠ cfg.pin) := by
      rcases hpin with h | h
      · exact fun hc => hc.1 h
      · exact fun hc => hc.2 h
    subst hbody
    simp [prepareUploadV2, hcond, hnone, hemp]
  · intro dto hpin hnone hbody hne
    have hcond : ¬(cfg.pin ≠ "" ∧ qpin ≠ cfg.pin) := by
      rcases hpin with h | h
      · exact fun hc => hc.1 h
      · exact fun hc => hc.2 h
    subst hbody
    rcases hmk : mkActiveFiles gen (ctr + 1) dto.files with ⟨fs, c⟩
    have hkeys := mkActiveFiles_keys gen dto.files (ctr + 1)
    have htoks := mkActiveFiles_tokens gen dto.files (ctr + 1)
    rw [hmk] at hkeys htoks
    have hstep : prepareUploadV2 cfg qpin st (some dto) senderIP gen ctr =
        ⟨200, some (gen ctr), some (fs.map fun p => (p.1, p.2.token)),
          ⟨some ⟨gen ctr,
            ⟨dto.info.alias_, dto.info.version, dto.info.deviceModel,
              dto.info.deviceType, dto.info.fingerprint, senderIP⟩, fs⟩⟩, c⟩ := by
      simp [prepareUploadV2, hcond, hnone, hne, receiveCreateSession, hmk]
    rw [hstep]
    have hcompf :
        (Prod.fst ∘ fun p : String × ActiveFile => (p.1, p.2.token)) =
          Prod.fst := funext fun p => rfl
    have hcomps :
        (Prod.snd ∘ fun p : String × ActiveFile => (p.1, p.2.token)) =
          (fun p => p.2.token) := funext fun p => rfl
    exact ⟨rfl, ⟨gen ctr,
      ⟨dto.info.alias_, dto.info.version, dto.info.deviceModel,
        dto.info.deviceType, dto.info.fingerprint, senderIP⟩, fs⟩,
      rfl, rfl, rfl, fs.map (fun p => (p.1, p.2.token)), rfl,
      by rw [List.map_map, hcompf]; exact hkeys,
      by rw [List.map_map, hcomps]; exact htoks⟩

/-- Witness for C3: a concrete one-file request with no PIN configured is
answered 200 with the generated session ID and one token for that file. -/
theorem prepareUploadV2_spec_witness :
    (prepareUploadV2 ⟨"", "/downloads"⟩ "" ⟨none⟩
        (some ⟨⟨"peer", "2.1", none, DeviceType.desktop, "fp-peer"⟩,
          [("fid-1", sampleFileDto)]⟩) "192.168.1.7" gen0 0).status = 200 :=
  ((prepareUploadV2_spec ⟨"", "/downloads"⟩ "" "192.168.1.7" ⟨none⟩
      (some ⟨⟨"peer", "2.1", none, DeviceType.desktop, "fp-peer"⟩,
        [("fid-1", sampleFileDto)]⟩) gen0 0).2.2.2.2 _
    (Or.inl rfl) rfl rfl (by decide)).1

/-- C1: every `/upload` request that is not answered 200 leaves the receive
session state (its file set and the session itself) unchanged: a request
missing `sessionId`, `fileId` or `token` is rejected 400; a session ID not
matching the active session, a source IP differing from the one recorded at
prepare-upload time, or a fileId/token pair not matching a pending file is
rejected 403; a storage-sink failure is answered 500; and in every non-200
outcome the state equals the initial state. -/
theorem uploadV2_error_preserves_session (cfg : Config) (st : ReceiveState)
    (sid fid tok ip : String) (sinkOk : Bool) :
    (sid = "" ∨ fid = "" ∨ tok = "" →
      (uploadV2 cfg st sid fid tok ip sinkOk).status = 400 ∧
      (uploadV2 cfg st sid fid tok ip sinkOk).state = st) ∧
    (¬(sid = "" ∨ fid = "" ∨ tok = "") →
      receiveGetSessionByID st sid = none →
      (uploadV2 cfg st sid fid tok ip sinkOk).status = 403 ∧
      (uploadV2 cfg st sid fid tok ip sinkOk).state = st) ∧
    (∀ s, ¬(sid = "" ∨ fid = "" ∨ tok = "") →
      receiveGetSessionByID st sid = some s → ip ≠ s.sender.ip →
      (uploadV2 cfg st sid fid tok ip sinkOk).status = 403 ∧
      (uploadV2 cfg st sid fid tok ip sinkOk).state = st) ∧
    (∀ s, ¬(sid = "" ∨ fid = "" ∨ tok = "") →
      receiveGetSessionByID st sid = some s → ip = s.sender.ip →
      (lookupA fid s.files = none ∨
        ∃ af, lookupA fid s.files = some af ∧ af.token ≠ tok) →
      (uploadV2 cfg st sid fid tok ip sinkOk).status = 403 ∧
      (uploadV2 cfg st sid fid tok ip sinkOk).state = st) ∧
    (∀ s af, ¬(sid = "" ∨ fid = "" ∨ tok = "") →
      receiveGetSessionByID st sid = some s → ip = s.sender.ip →
      lookupA fid s.files = some af → af.token = tok → sinkOk = false →
      (uploadV2 cfg st sid fid tok ip sinkOk).status = 500 ∧
      (uploadV2 cfg st sid fid tok ip sinkOk).state = st) ∧
    ((uploadV2 cfg st sid fid tok ip sinkOk).status ≠ 200 →
      (uploadV2 cfg st sid fid tok ip sinkOk).state = st) := by
  refine ⟨?_, ?_, ?_, ?_, ?_, ?_⟩
  · intro hmiss
    simp [uploadV2, hmiss]
  · intro hne hsess
    simp [uploadV2, hne, hsess]
  · intro s hne hsess hip
    simp [uploadV2, hne, hsess, hip]
  · intro s hne hsess hip hbad
    rcases hbad with hnonef | ⟨af, haf, htok⟩
    · simp [uploadV2, hne, hsess, hip, hnonef]
    · simp [uploadV2, hne, hsess, hip, haf, htok]
  · intro s af hne hsess hip haf htok hsink
    subst hsink
    simp [uploadV2, hne, hsess, hip, haf, htok]
  · intro h200
    by_cases hmiss : sid = "" ∨ fid = "" ∨ tok = ""
    · simp [uploadV2, hmiss]
    rcases hsess : receiveGetSessionByID st sid with _ | s
    · simp [uploadV2, hmiss, hsess]
    by_cases hip : ip = s.sender.ip
    · rcases haf : lookupA fid s.files with _ | af
      · simp [uploadV2, hmiss, hsess, hip, haf]
      by_cases htok : af.token = tok
      · cases sinkOk with
        | false => simp [uploadV2, hmiss, hsess, hip, haf, htok]
        | true =>
          exfalso
          apply h200
          simp [uploadV2, hmiss, hsess, hip, haf, htok]
      · simp [uploadV2, hmiss, hsess, hip, haf, htok]
    · simp [uploadV2, hmiss, hsess, hip]

/-- Witness for C1: an upload against the sample busy session with a wrong
token is rejected 403 and the session is untouched. -/
theorem uploadV2_error_preserves_session_witness :
    (uploadV2 ⟨"", "/downloads"⟩ busyReceive "sid-1" "fid-1" "wrong"
        "192.168.1.7" true).status = 403 ∧
    (uploadV2 ⟨"", "/downloads"⟩ busyReceive "sid-1" "fid-1" "wrong"
        "192.168.1.7" true).state = busyReceive :=
  (uploadV2_error_preserves_session ⟨"", "/downloads"⟩ busyReceive "sid-1"
      "fid-1" "wrong" "192.168.1.7" true).2.2.2.1
    ⟨"sid-1", sampleSender, [("fid-1", ⟨sampleFileDto, "tok-1"⟩)]⟩
    (by decide) (by decide) (by decide)
    (Or.inr ⟨⟨sampleFileDto, "tok-1"⟩, by decide, by decide⟩)

/-- C10: an `/upload` request that passes all validation hands the storage
sink exactly the path `filepath.Join(DownloadDir, FileName)` where
`FileName` is the name declared at prepare-upload time, unsanitized; and
joining a declared name containing `..` components escapes the download
directory, as at the concrete input `FileName = "../../etc/passwd"` with
`DownloadDir = "/downloads"`, whose destination `/etc/passwd` lies outside
`/downloads`. -/
theorem uploadV2_destination_unsanitized (cfg : Config) (st : ReceiveState)
    (sid fid tok ip : String) (sinkOk : Bool) (s : ActiveReceiveSession)
    (af : ActiveFile)
    (hne : ¬(sid = "" ∨ fid = "" ∨ tok = ""))
    (hsess : receiveGetSessionByID st sid = some s)
    (hip : ip = s.sender.ip)
    (haf : lookupA fid s.files = some af)
    (htok : af.token = tok) :
    (uploadV2 cfg st sid fid tok ip sinkOk).sinkCalls =
      [joinPath cfg.downloadDir af.dto.fileName] ∧
    joinPath "/downloads" "../../etc/passwd" = "/etc/passwd" ∧
    ("/downloads" ++ "/").data.isPrefixOf "/etc/passwd".data = false ∧
    "/etc/passwd" ≠ "/downloads" := by
  refine ⟨?_, by decide, by decide, by decide⟩
  cases sinkOk with
  | false => simp [uploadV2, hne, hsess, hip, haf, htok]
  | true => simp [uploadV2, hne, hsess, hip, haf, htok]

/-- Witness for C10: uploading to the sample session with a traversal file
name writes outside the download directory. -/
theorem uploadV2_destination_unsanitized_witness :
    (uploadV2 ⟨"", "/downloads"⟩
        ⟨some ⟨"sid-1", sampleSender,
          [("fid-1", ⟨⟨"fid-1", "../../etc/passwd", 4, "text/plain", none⟩,
            "tok-1"⟩)]⟩⟩
        "sid-1" "fid-1" "tok-1" "192.168.1.7" true).sinkCalls =
      ["/etc/passwd"] := by
  have h := uploadV2_destination_unsanitized ⟨"", "/downloads"⟩
    ⟨some ⟨"sid-1", sampleSender,
      [("fid-1", ⟨⟨"fid-1", "../../etc/passwd", 4, "text/plain", none⟩,
        "tok-1"⟩)]⟩⟩
    "sid-1" "fid-1" "tok-1" "192.168.1.7" true
    ⟨"sid-1", sampleSender,
      [("fid-1", ⟨⟨"fid-1", "../../etc/passwd", 4, "text/plain", none⟩,
        "tok-1"⟩)]⟩
    ⟨⟨"fid-1", "../../etc/passwd", 4, "text/plain", none⟩, "tok-1"⟩
    (by decide) (by decide) (by decide) (by decide) (by decide)
  rw [h.1]
  decide

/-- Counterexample to C6 as stated: the claim says the repeat sighting
updates the entry's last-seen/IP, but `UpdateLastSeen` touches only
last-seen and availability — after a second sighting of fingerprint fp-1
from 10.0.0.2, the single registry entry still carries the first-seen IP
10.0.0.1, not 10.0.0.2. -/
theorem updateDevice_ip_not_updated_counterexample :
    (updateDevice (updateDevice [] 100 devFirst).1 200 devSecond).1 =
      [("fp-1", { devFirst with lastSeen := 200, available := true })] ∧
    devFirst.ip = "10.0.0.1" ∧ devSecond.ip = "10.0.0.2" ∧
    ({ devFirst with lastSeen := 200, available := true }).ip = "10.0.0.1" ∧
    "10.0.0.1" ≠ "10.0.0.2" := by decide

/-- C6 amended: upserting a Discovery Message whose fingerprint is already
registered leaves exactly one entry for that fingerprint and updates only
that entry's last-seen and availability, preserving every first-seen field
of the existing entry including its recorded IP; no handler fires on the
refresh, while a first sighting inserts the device and fires the handlers
once. -/
theorem updateDevice_dedup (devices : List (String × Device)) (now : Int)
    (d : Device) (hnd : (keysA devices).Nodup) :
    (lookupA d.fingerprint devices = none →
      updateDevice devices now d = (devices ++ [(d.fingerprint, d)], [d])) ∧
    (∀ d1, lookupA d.fingerprint devices = some d1 →
      (updateDevice devices now d).2 = [] ∧
      lookupA d.fingerprint (updateDevice devices now d).1 =
        some (updateLastSeen d1 now) ∧
      (updateLastSeen d1 now).ip = d1.ip ∧
      (updateLastSeen d1 now).alias_ = d1.alias_ ∧
      (updateLastSeen d1 now).version = d1.version ∧
      (updateLastSeen d1 now).port = d1.port ∧
      (updateLastSeen d1 now).protocol = d1.protocol ∧
      (updateLastSeen d1 now).fingerprint = d1.fingerprint ∧
      (updateLastSeen d1 now).deviceModel = d1.deviceModel ∧
      (updateLastSeen d1 now).deviceType = d1.deviceType ∧
      (updateLastSeen d1 now).download = d1.download ∧
      (∀ k, k ≠ d.fingerprint →
        lookupA k (updateDevice devices now d).1 = lookupA k devices) ∧
      keysA (updateDevice devices now d).1 = keysA devices ∧
      (keysA (updateDevice devices now d).1).count d.fingerprint = 1) := by
  constructor
  · intro h
    simp [updateDevice, h]
  · intro d1 h
    have hred : updateDevice devices now d =
        (devices.map fun p =>
          if p.1 = d.fingerprint then (p.1, updateLastSeen p.2 now) else p,
          []) := by
      simp [updateDevice, h]
    rw [hred]
    refine ⟨rfl, lookupA_map_refresh devices d.fingerprint now d1 h,
      rfl, rfl, rfl, rfl, rfl, rfl, rfl, rfl, rfl,
      fun k hk => lookupA_map_refresh_ne devices d.fingerprint k now hk,
      keysA_map_refresh devices d.fingerprint now, ?_⟩
    rw [keysA_map_refresh devices d.fingerprint now]
    exact List.count_eq_one_of_mem hnd
      (lookupA_some_mem_keysA d.fingerprint devices d1 h)

/-- Witness for C6 (amended): refreshing fp-1 from a new IP fires no
handler and leaves one entry whose only changed fields are last-seen and
availability. -/
theorem updateDevice_dedup_witness :
    (updateDevice [("fp-1", devFirst)] 200 devSecond).2 = [] ∧
    lookupA devSecond.fingerprint
        (updateDevice [("fp-1", devFirst)] 200 devSecond).1 =
      some (updateLastSeen devFirst 200) := by
  have h := (updateDevice_dedup [("fp-1", devFirst)] 200 devSecond
    (by decide)).2 devFirst (by decide)
  exact ⟨h.1, h.2.1⟩

/-- C7: a registry record whose last-seen instant is older than the device
timeout (default 2 minutes) is filtered out of both reads (`GetDevices` and
`GetDevice`) but its record is not deleted, and refreshing the same
fingerprint later makes it reappear in reads with every first-seen identity
field of the original record intact. -/
theorem staleness_excluded_not_deleted (devices : List (String × Device))
    (f : String) (d d' : Device) (now1 now2 timeout : Int)
    (hmem : lookupA f devices = some d)
    (hstale : isStale d now1 timeout = true)
    (htimeout : 0 ≤ timeout)
    (hf : d'.fingerprint = f) :
    getDevice devices f now1 timeout = none ∧
    d ∉ getDevices devices now1 timeout ∧
    lookupA f devices = some d ∧
    getDevice (updateDevice devices now2 d').1 f now2 timeout =
      some (updateLastSeen d now2) ∧
    (updateLastSeen d now2).ip = d.ip ∧
    (updateLastSeen d now2).alias_ = d.alias_ ∧
    (updateLastSeen d now2).version = d.version ∧
    (updateLastSeen d now2).port = d.port ∧
    (updateLastSeen d now2).protocol = d.protocol ∧
    (updateLastSeen d now2).fingerprint = d.fingerprint ∧
    (updateLastSeen d now2).deviceModel = d.deviceModel ∧
    (updateLastSeen d now2).deviceType = d.deviceType ∧
    (updateLastSeen d now2).download = d.download ∧
    defaultServiceConfig.deviceTimeout = 2 * 60 * 1000000000 := by
  have hlookup' : lookupA d'.fingerprint devices = some d := by rw [hf]; exact hmem
  have hred : updateDevice devices now2 d' =
      (devices.map fun p =>
        if p.1 = d'.fingerprint then (p.1, updateLastSeen p.2 now2) else p,
        []) := by
    simp [updateDevice, hlookup']
  refine ⟨?_, ?_, hmem, ?_, rfl, rfl, rfl, rfl, rfl, rfl, rfl, rfl, rfl, rfl⟩
  · simp [getDevice, hmem, hstale]
  · intro hd
    simp only [getDevices, List.mem_map, List.mem_filter] at hd
    obtain ⟨p, ⟨_, hfresh⟩, hp2⟩ := hd
    rw [hp2] at hfresh
    simp [hstale] at hfresh
  · have hfreshLookup :
        lookupA f (updateDevice devices now2 d').1 =
          some (updateLastSeen d now2) := by
      rw [hred, ← hf]
      exact lookupA_map_refresh devices d'.fingerprint now2 d hlookup'
    have hnotStale : isStale (updateLastSeen d now2) now2 timeout = false := by
      simp only [isStale, updateLastSeen]
      simp only [decide_eq_false_iff_not]
      omega
    simp [getDevice, hfreshLookup, hnotStale]

/-- Witness for C7: with the 2-minute default timeout, `devFirst`
(last seen at t=100) is invisible to reads at t=120000000101 yet still
stored, and a refresh at t=200 makes `GetDevice` return it again. -/
theorem staleness_excluded_not_deleted_witness :
    getDevice [("fp-1", devFirst)] "fp-1" 120000000101 120000000000 = none ∧
    getDevice (updateDevice [("fp-1", devFirst)] 200 devSecond).1 "fp-1" 200
        120000000000 = some (updateLastSeen devFirst 200) := by
  have h := staleness_excluded_not_deleted [("fp-1", devFirst)] "fp-1"
    devFirst devSecond 120000000101 200 120000000000 (by decide) (by decide)
    (by decide) (by decide)
  exact ⟨h.1, h.2.2.2.1⟩

/-- Counterexample to C8 as stated: `Discover` returns the snapshot of the
last 250 ms poll, not "every fresh device seen by the deadline": a device
registered after the final poll is omitted from the result, and a deadline
shorter than the first poll interval yields the empty list even though the
registry holds a fresh device — in both cases with a nil error. -/
theorem discover_counterexample :
    devLate ∈ getDevices [("fp-1", devFirst), ("fp-2", devLate)] 300
        defaultServiceConfig.deviceTimeout ∧
    devLate ∉ (discover [getDevices [("fp-1", devFirst)] 250
        defaultServiceConfig.deviceTimeout]).devices ∧
    devFirst ∈ getDevices [("fp-1", devFirst)] 150
        defaultServiceConfig.deviceTimeout ∧
    (discover []).devices = [] ∧
    (discover []).err = none := by decide

theorem discoverLoop_eq (snaps : List (List Device)) :
    ∀ lastDevices, discoverLoop snaps lastDevices =
      ((snaps.getLast?).getD lastDevices, none) := by
  induction snaps with
  | nil => intro l; rfl
  | cons s rest ih =>
    intro l
    have h1 : discoverLoop (s :: rest) l = discoverLoop rest s := rfl
    rw [h1, ih s]
    cases rest with
    | nil => rfl
    | cons t ts =>
      rw [List.getLast?_cons_cons]
      cases hgl : (t :: ts).getLast? with
      | none => simp [List.getLast?_eq_none_iff] at hgl
      | some x => rfl

/-- C8 amended: `Discover` is bounded by the caller-supplied deadline: it
sends exactly one announcement, polls the registry at the fixed 250 ms
interval, and when the deadline fires returns the fresh-device snapshot of
the most recent poll (the empty list if the deadline fires before the first
poll) together with a nil error — exceeding the deadline is never reported
as a failure. -/
theorem discover_last_poll_nil_error (snapshots : List (List Device)) :
    discover snapshots = ⟨(snapshots.getLast?).getD [], none, 1⟩ := by
  simp [discover, discoverLoop_eq]

/-- Counterexample to C9 as stated: the 200 response does not stream the
file's content — the body is the constant placeholder "Hello, World"
(12 bytes) even though the file's metadata, echoed in the Content-Length
header, declares 5 bytes. -/
theorem downloadHandler_placeholder_counterexample :
    (downloadHandler sendStateSmall "sess-1" "f1").status = 200 ∧
    (downloadHandler sendStateSmall "sess-1" "f1").body =
      some "Hello, World" ∧
    sendFileSmall.size = 5 ∧
    ("Hello, World").data.length = 12 ∧ (12 : Int) ≠ 5 := by decide

/-- C9 amended: a `/download` request missing either parameter is answered
400; an unknown session ID or a file ID not in the session is answered 404;
a request matching the active send session and one of its files is answered
200 with Content-Disposition, Content-Type and Content-Length taken from
the file's metadata, but the body written is the fixed placeholder string
"Hello, World" rather than the file's content. -/
theorem downloadHandler_spec (st : SendState) (sessionId fileId : String) :
    (sessionId = "" ∨ fileId = "" →
      downloadHandler st sessionId fileId = ⟨400, none, none, none, none⟩) ∧
    (¬(sessionId = "" ∨ fileId = "") →
      sendGetSessionByID st sessionId = none →
      downloadHandler st sessionId fileId = ⟨404, none, none, none, none⟩) ∧
    (∀ s, ¬(sessionId = "" ∨ fileId = "") →
      sendGetSessionByID st sessionId = some s →
      lookupA fileId s.files = none →
      downloadHandler st sessionId fileId = ⟨404, none, none, none, none⟩) ∧
    (∀ s file, ¬(sessionId = "" ∨ fileId = "") →
      sendGetSessionByID st sessionId = some s →
      lookupA fileId s.files = some file →
      downloadHandler st sessionId fileId =
        ⟨200, some ("attachment; filename=\"" ++ file.fileName ++ "\""),
          some file.fileType, some (toString file.size),
          some "Hello, World"⟩) := by
  refine ⟨?_, ?_, ?_, ?_⟩
  · intro hmiss
    simp [downloadHandler, hmiss]
  · intro hne hsess
    simp [downloadHandler, hne, hsess]
  · intro s hne hsess hfile
    simp [downloadHandler, hne, hsess, hfile]
  · intro s file hne hsess hfile
    simp [downloadHandler, hne, hsess, hfile]

/-- Witness for C9 (amended): the concrete sample download is answered 200
with metadata headers and the placeholder body. -/
theorem downloadHandler_spec_witness :
    downloadHandler sendStateSmall "sess-1" "f1" =
      ⟨200, some ("attachment; filename=\"" ++ sendFileSmall.fileName ++ "\""),
        some sendFileSmall.fileType, some (toString sendFileSmall.size),
        some "Hello, World"⟩ :=
  (downloadHandler_spec sendStateSmall "sess-1" "f1").2.2.2
    ⟨"sess-1", [("f1", sendFileSmall)]⟩ sendFileSmall (by decide) (by decide)
    (by decide)

end LocalGo
